import Mathlib

/-!
Shallow embedding of the Transactions Summary API (app/main.py).

Modelling conventions:
- A calendar date (python date) is its day index, an Int; a datetime is its
  second index, an Int; datetime.combine(d, datetime.min.time()) is d * 86400,
  and timedelta(days=1) is 86400 seconds.  Python date ordering coincides with
  day-index ordering.
- The stored transactions table is a list of rows in insertion order; every
  column is nullable, as in the CREATE TABLE schema (no NOT NULL constraint).
- DOUBLE amounts are modelled by rationals; none of the claims depends on
  floating-point rounding.
- The storage engine (DuckDB) is an external collaborator; its CSV reading and
  CAST semantics are modelled from the spec where they decide a claim.
-/

/-- One row of the transactions table (schema of get_conn, main.py lines 33-43):
transaction_id VARCHAR, user_id INTEGER, product_id INTEGER,
timestamp TIMESTAMP, transaction_amount DOUBLE.  All columns nullable. -/
structure Transaction where
  transaction_id : Option String
  user_id : Option Int
  product_id : Option Int
  timestamp : Option Int
  transaction_amount : Option ℚ
deriving DecidableEq, Repr

/-- Seconds in one day: the value of timedelta(days=1). -/
def secondsPerDay : Int := 86400

/-- datetime.combine(d, datetime.min.time()) for a calendar date d. -/
def dayStart (d : Int) : Int := d * secondsPerDay

/-- The lower-bound condition appended when start is given (main.py lines
179-181): timestamp >= dayStart start.  A NULL timestamp never satisfies a
comparison, as in SQL. -/
def lowerOk (s? : Option Int) (ts : Option Int) : Bool :=
  match s?, ts with
  | none, _ => true
  | some _, none => false
  | some s, some t => decide (dayStart s ≤ t)

/-- The upper-bound condition appended when end is given (main.py lines
182-185): timestamp < dayStart end + one day, the bound exclusive. -/
def upperOk (e? : Option Int) (ts : Option Int) : Bool :=
  match e?, ts with
  | none, _ => true
  | some _, none => false
  | some e, some t => decide (t < dayStart e + secondsPerDay)

/-- The WHERE clause built by summary_user (main.py lines 178-185):
user_id = ? and the two optional timestamp bounds. -/
def rowMatches (u : Int) (s? e? : Option Int) (r : Transaction) : Bool :=
  decide (r.user_id = some u) && lowerOk s? r.timestamp && upperOk e? r.timestamp

/-- SQL MIN over a column: NULL values are dropped before the fold, and the
result is NULL when no non-NULL value remains. -/
def sqlMin (xs : List ℚ) : Option ℚ :=
  xs.foldl (fun acc x =>
    match acc with
    | none => some x
    | some m => some (min m x)) none

/-- SQL MAX, as sqlMin. -/
def sqlMax (xs : List ℚ) : Option ℚ :=
  xs.foldl (fun acc x =>
    match acc with
    | none => some x
    | some m => some (max m x)) none

/-- SQL AVG: NULL when no non-NULL value exists, else the mean of them. -/
def sqlAvg (xs : List ℚ) : Option ℚ :=
  if xs.length = 0 then none else some (xs.sum / (xs.length : ℚ))

/-- Result row of the aggregate SELECT (main.py lines 187-197). -/
structure AggResult where
  count : Nat
  min : Option ℚ
  max : Option ℚ
  mean : Option ℚ
deriving DecidableEq, Repr

/-- COUNT, MIN, MAX, AVG over an already-selected list of rows.  COUNT counts
rows; the other three see only the non-NULL amounts. -/
def aggRows (rows : List Transaction) : AggResult :=
  let amts := rows.filterMap (fun r => r.transaction_amount)
  { count := rows.length, min := sqlMin amts, max := sqlMax amts, mean := sqlAvg amts }

/-- The aggregate query of summary_user: COUNT, MIN, MAX, AVG over the rows
selected by the WHERE clause. -/
def aggregate (table : List Transaction) (u : Int) (s? e? : Option Int) : AggResult :=
  aggRows (table.filter (rowMatches u s? e?))

/-- Body of the SummaryResponse model (main.py lines 62-75). -/
structure SummaryResponse where
  user_id : Int
  start_date : Option Int
  end_date : Option Int
  count : Nat
  min : Option ℚ
  max : Option ℚ
  mean : Option ℚ
deriving DecidableEq, Repr

/-- Outcome of the summary endpoint: an HTTPException or a 200 body. -/
inductive SummaryOutcome where
  | httpError (status : Nat) (detail : String)
  | ok (resp : SummaryResponse)
deriving DecidableEq, Repr

/-- Trace of one run of the summary endpoint: the table state after the
request, how many aggregate queries were executed against storage, and the
response. -/
structure SummaryRun where
  table : List Transaction
  queries : Nat
  outcome : SummaryOutcome
deriving DecidableEq, Repr

/-- The range guard of summary_user (main.py line 172): both dates present and
end earlier than start.  A python date object is always truthy. -/
def invalidRange (s? e? : Option Int) : Bool :=
  match s?, e? with
  | some s, some e => decide (e < s)
  | _, _ => false

/-- The summary endpoint, summary_user (main.py lines 156-209): reject an
invalid range before touching storage, run the single aggregate query, map a
zero count to 404, otherwise echo the inputs with the aggregates. -/
def summary_user (table : List Transaction) (u : Int) (s? e? : Option Int) :
    SummaryRun :=
  if invalidRange s? e? then
    { table := table, queries := 0,
      outcome := .httpError 400 "end date must be on/after start date." }
  else
    let agg := aggregate table u s? e?
    if agg.count = 0 then
      { table := table, queries := 1,
        outcome := .httpError 404 "No transactions found for the given criteria." }
    else
      { table := table, queries := 1,
        outcome := .ok { user_id := u, start_date := s?, end_date := e?,
                         count := agg.count, min := agg.min, max := agg.max,
                         mean := agg.mean } }

/-!
CSV ingestion pipeline (upload_csv, main.py lines 82-153).

The uploaded file is modelled after staging: a filename, a header row and the
data rows, each row a list of raw text fields.  An empty field is the empty
string; the engine reads it as NULL.
-/

/-- An uploaded CSV file as staged for ingestion. -/
structure CSVFile where
  filename : String
  header : List String
  rows : List (List String)
deriving DecidableEq, Repr

/-- The required column set of upload_csv (main.py line 120). -/
def requiredCols : List String :=
  ["transaction_id", "user_id", "product_id", "timestamp", "transaction_amount"]

/-- ASCII lowering of one character, as python str.lower acts on ASCII. -/
def lowerChar (c : Char) : Char :=
  if 65 ≤ c.toNat ∧ c.toNat ≤ 90 then Char.ofNat (c.toNat + 32) else c

/-- file.filename.lower().endswith(".csv") (main.py line 96). -/
def filenameIsCsv (s : String) : Bool :=
  (s.data.map lowerChar).reverse.take 4 = [ 'v', 's', 'c', '.' ]

/-- Code-point comparison of strings, the order python sorted uses. -/
def lexLt : List Char → List Char → Bool
  | [], [] => false
  | [], _ :: _ => true
  | _ :: _, [] => false
  | a :: as, b :: bs =>
    if a.toNat < b.toNat then true
    else if b.toNat < a.toNat then false
    else lexLt as bs

/-- Strict string order by code points. -/
def strLtB (a b : String) : Bool := lexLt a.data b.data

/-- Reflexive string order by code points. -/
def strLeB (a b : String) : Bool := !(strLtB b a)

/-- Insert into an ascending list, keeping it ascending. -/
def insertSorted (x : String) : List String → List String
  | [] => [x]
  | y :: ys => if strLeB x y then x :: y :: ys else y :: insertSorted x ys

/-- Ascending sort of a list of strings: python sorted. -/
def sortStrings (xs : List String) : List String := xs.foldr insertSorted []

/-- The sorted list of required columns absent from the inferred column set
(main.py lines 120-122): sorted(required - cols). -/
def missingCols (header : List String) : List String :=
  sortStrings (requiredCols.filter (fun c => ¬ header.contains c))

/-- ", ".join of python (main.py line 123). -/
def joinComma : List String → String
  | [] => ""
  | [x] => x
  | x :: xs => x ++ ", " ++ joinComma xs

/-- Position of a column name in the header, first occurrence. -/
def colIndex (col : String) : List String → Option Nat
  | [] => none
  | c :: cs => if c = col then some 0 else (colIndex col cs).map (fun i => i + 1)

/-- The raw text of the named column in one data row; none when the column is
absent or the row is too short. -/
def getField (header row : List String) (col : String) : Option String :=
  (colIndex col header).bind (fun i => row[i]?)

/-- Digits of a character string as a number; fails on a non-digit or on the
empty string. -/
def digitsToNat : List Char → Option Nat
  | [] => none
  | cs => go cs 0
where
  go : List Char → Nat → Option Nat
    | [], acc => some acc
    | c :: cs, acc =>
      if c.isDigit then go cs (acc * 10 + (c.toNat - 48)) else none

/-- True on ASCII whitespace, the characters python str.strip removes. -/
def isSpaceChar (c : Char) : Bool :=
  c = ' ' ∨ c = '\t' ∨ c = '\n' ∨ c = '\r'

/-- Strip surrounding whitespace from a field. -/
def trimChars (cs : List Char) : List Char :=
  ((cs.dropWhile isSpaceChar).reverse.dropWhile isSpaceChar).reverse

/-- Split a character list at every occurrence of a separator character. -/
def splitOnChar (sep : Char) : List Char → List (List Char)
  | [] => [[]]
  | c :: cs =>
    let r := splitOnChar sep cs
    if c = sep then [] :: r
    else
      match r with
      | [] => [[c]]
      | g :: gs => (c :: g) :: gs

/-- An optionally negated run of digits as an integer. -/
def signedDigits (cs : List Char) : Option Int :=
  match cs with
  | '-' :: ds => (digitsToNat ds).map (fun n => -(n : Int))
  | ds => (digitsToNat ds).map (fun n => (n : Int))

/-- Modelled from the spec: the engine CAST of a text field to INTEGER (the
engine is outside the repository).  Surrounding whitespace is permitted;
non-numeric text fails. -/
def castINTEGER (s : String) : Option Int := signedDigits (trimChars s.data)

/-- A non-negative decimal numeral, digits with an optional fraction part. -/
def unsignedDecimal (cs : List Char) : Option ℚ :=
  match splitOnChar '.' cs with
  | [w] => (digitsToNat w).map (fun n => (n : ℚ))
  | [w, f] =>
    match digitsToNat w, digitsToNat f with
    | some wn, some fn => some ((wn : ℚ) + (fn : ℚ) / ((10 : ℚ) ^ f.length))
    | _, _ => none
  | _ => none

/-- Modelled from the spec: the engine CAST of a text field to DOUBLE.
Surrounding whitespace is permitted; non-numeric text fails. -/
def castDOUBLE (s : String) : Option ℚ :=
  match trimChars s.data with
  | '-' :: ds => (unsignedDecimal ds).map (fun q => -q)
  | ds => unsignedDecimal ds

/-- Days from the civil date y-m-d in the proleptic Gregorian calendar,
relative to 1970-01-01. -/
def civilDay (y m d : Int) : Int :=
  let y2 := if m ≤ 2 then y - 1 else y
  let era : Int := (if 0 ≤ y2 then y2 else y2 - 399) / 400
  let yoe := y2 - era * 400
  let doy := (153 * (if 2 < m then m - 3 else m + 9) + 2) / 5 + d - 1
  let doe := yoe * 365 + yoe / 4 - yoe / 100 + doy
  era * 146097 + doe - 719468

/-- The date part YYYY-MM-DD of a timestamp field, as a day index. -/
def parseDatePart (cs : List Char) : Option Int :=
  match splitOnChar '-' cs with
  | [ys, ms, ds] =>
    match digitsToNat ys, digitsToNat ms, digitsToNat ds with
    | some y, some m, some d =>
      if 1 ≤ m ∧ m ≤ 12 ∧ 1 ≤ d ∧ d ≤ 31 then
        some (civilDay (y : Int) (m : Int) (d : Int))
      else none
    | _, _, _ => none
  | _ => none

/-- The time part HH:MM:SS of a timestamp field, in seconds. -/
def parseTimePart (cs : List Char) : Option Int :=
  match splitOnChar ':' cs with
  | [hs, ms, ss] =>
    match digitsToNat hs, digitsToNat ms, digitsToNat ss with
    | some h, some mi, some sec =>
      if h < 24 ∧ mi < 60 ∧ sec < 60 then
        some ((h : Int) * 3600 + (mi : Int) * 60 + (sec : Int))
      else none
    | _, _, _ => none
  | _ => none

/-- Modelled from the spec: the engine CAST of a text field to TIMESTAMP, in
the format YYYY-MM-DD HH:MM:SS, the time of day optional. -/
def castTIMESTAMP (s : String) : Option Int :=
  match splitOnChar ' ' (trimChars s.data) with
  | [d] => (parseDatePart d).map dayStart
  | [d, t] =>
    match parseDatePart d, parseTimePart t with
    | some dd, some tt => some (dayStart dd + tt)
    | _, _ => none
  | _ => none

/-- The engine CAST of a text field to VARCHAR never fails. -/
def castVARCHAR (s : String) : Option String := some s

/-- Cast one raw field: an empty CSV field is read as NULL, and CAST of NULL
is NULL, never a failure. -/
def castField (cast : String → Option α) (s : String) : Option (Option α) :=
  if s = "" then some none else (cast s).map some

/-- Cast-and-insert of one candidate row: the CAST list of the INSERT SELECT
(main.py lines 130-135), reading exactly the five required columns.  A missing
field or a failed cast rejects the row. -/
def castRow (header row : List String) : Option Transaction :=
  (getField header row "transaction_id").bind fun f1 =>
  (getField header row "user_id").bind fun f2 =>
  (getField header row "product_id").bind fun f3 =>
  (getField header row "timestamp").bind fun f4 =>
  (getField header row "transaction_amount").bind fun f5 =>
  (castField castVARCHAR f1).bind fun v1 =>
  (castField castINTEGER f2).bind fun v2 =>
  (castField castINTEGER f3).bind fun v3 =>
  (castField castTIMESTAMP f4).bind fun v4 =>
  (castField castDOUBLE f5).bind fun v5 =>
  some { transaction_id := v1, user_id := v2, product_id := v3,
         timestamp := v4, transaction_amount := v5 }

/-- The set-based cast of the whole batch: all rows or none. -/
def castAll (header : List String) : List (List String) → Option (List Transaction)
  | [] => some []
  | r :: rs =>
    match castRow header r, castAll header rs with
    | some t, some ts => some (t :: ts)
    | _, _ => none

/-- Outcome of the upload endpoint: a 200 body or an HTTPException. -/
inductive UploadResult where
  | ok (rows_inserted : Nat)
  | httpError (status : Nat) (detail : String)
deriving DecidableEq, Repr

/-- One run of the upload endpoint: the table state after the request and the
response. -/
structure UploadRun where
  table : List Transaction
  result : UploadResult
deriving DecidableEq, Repr

/-- An error raised by the storage engine during the cast-and-insert: either a
ConversionException or any other engine error. -/
inductive EngineError where
  | conversionException (msg : String)
  | otherError (msg : String)
deriving DecidableEq, Repr

/-- The exception handling of the cast-and-insert step (main.py lines
140-145): a ConversionException and every other engine error both become a
400, with distinct detail prefixes. -/
def handleEngineError : EngineError → UploadResult
  | .conversionException e => .httpError 400 ("Invalid data format: " ++ e)
  | .otherError e => .httpError 400 ("Ingestion error: " ++ e)

/-- The cast-and-insert step (main.py lines 126-147).  fault injects an
engine-internal error that is not a conversion failure (these arise
nondeterministically inside the engine); convMsg is the message the engine
attaches to a ConversionException.  On success the batch is appended and the
count of RETURNING rows reported. -/
def insertStage (fault : Option String) (convMsg : String)
    (table : List Transaction) (file : CSVFile) : UploadRun :=
  match fault with
  | some msg => { table := table, result := handleEngineError (.otherError msg) }
  | none =>
    match castAll file.header file.rows with
    | some txs => { table := table ++ txs, result := .ok txs.length }
    | none =>
      { table := table,
        result := handleEngineError (.conversionException convMsg) }

/-- The upload endpoint, upload_csv (main.py lines 82-153): reject a filename
not ending in .csv, reject a header with missing required columns naming them
sorted, otherwise run the cast-and-insert step. -/
def upload_csv (fault : Option String) (convMsg : String)
    (table : List Transaction) (file : CSVFile) : UploadRun :=
  if ¬ filenameIsCsv file.filename then
    { table := table, result := .httpError 400 "Only CSV files are accepted." }
  else if missingCols file.header ≠ [] then
    { table := table,
      result := .httpError 400
        ("Missing columns: " ++ joinComma (missingCols file.header)) }
  else insertStage fault convMsg table file

/-- The row-selection window as the spec words it: the row belongs to user u,
its timestamp is at or after start 00:00:00 when start is given, and strictly
before (end + 1 day) 00:00:00 when end is given; an absent bound imposes no
constraint. -/
def specSelects (u : Int) (s? e? : Option Int) (r : Transaction) : Prop :=
  r.user_id = some u ∧
  (∀ s, s? = some s → ∃ t, r.timestamp = some t ∧ dayStart s ≤ t) ∧
  (∀ e, e? = some e → ∃ t, r.timestamp = some t ∧ t < dayStart (e + 1))

/-- The HTTP status of an upload response, none for a 200. -/
def UploadResult.status : UploadResult → Option Nat
  | .ok _ => none
  | .httpError s _ => some s

/-- Conclusion of claim C1: the WHERE clause selects exactly the spec window,
the count aggregates exactly the selected rows, a row at end 23:59:59 is in
and a row at (end + 1) 00:00:00 is out. -/
def DateWindowSelects (table : List Transaction) (u : Int) (s? e? : Option Int) : Prop :=
  (∀ r, rowMatches u s? e? r = true ↔ specSelects u s? e? r) ∧
  (aggregate table u s? e?).count = table.countP (rowMatches u s? e?) ∧
  (∀ e r, e? = some e → Transaction.user_id r = some u →
    Transaction.timestamp r = some (dayStart e + 86399) →
    rowMatches u s? e? r = true) ∧
  (∀ e r, e? = some e → Transaction.timestamp r = some (dayStart (e + 1)) →
    rowMatches u s? e? r = false)

/-- Conclusion of claim C3: an empty amount field is read as NULL rather than
failing or becoming zero, a cast row keeps that NULL, and a non-empty match
set of all-NULL amounts has a positive count with absent min, max and mean. -/
def NullAmountSemantics : Prop :=
  castField castDOUBLE "" = some none ∧
  (∀ header row tx, castRow header row = some tx →
    getField header row "transaction_amount" = some "" →
    tx.transaction_amount = none) ∧
  (∀ (table : List Transaction) (u : Int) (s? e? : Option Int),
    table.filter (rowMatches u s? e?) ≠ [] →
    (∀ r ∈ table.filter (rowMatches u s? e?), r.transaction_amount = none) →
    0 < (aggregate table u s? e?).count ∧
    aggregate table u s? e? =
      { count := (table.filter (rowMatches u s? e?)).length,
        min := none, max := none, mean := none })

/-- Conclusion of claim C5: a header with absent required columns is rejected
with a 400 naming exactly the missing names in sorted order, while a header
containing all required columns proceeds to the insert stage, whose row cast
reads none of the extra columns. -/
def MissingColumnsOutcome (fault : Option String) (convMsg : String)
    (table : List Transaction) (file : CSVFile) : Prop :=
  (missingCols file.header ≠ [] →
    upload_csv fault convMsg table file =
      { table := table,
        result := .httpError 400
          ("Missing columns: " ++ joinComma (missingCols file.header)) } ∧
    List.Pairwise (fun a b => strLtB a b = true) (missingCols file.header) ∧
    (∀ c, c ∈ missingCols file.header ↔
      c ∈ requiredCols ∧ file.header.contains c = false)) ∧
  ((∀ c ∈ requiredCols, file.header.contains c = true) →
    upload_csv fault convMsg table file = insertStage fault convMsg table file ∧
    (∀ h2 row r2, List.length row = List.length file.header →
      castRow (file.header ++ h2) (row ++ r2) = castRow file.header row))

/-- Conclusion of claim C6: under a valid range, the summary is a 404 exactly
when the matching count is zero, and a positive count yields the 200 body
echoing the inputs with the aggregates. -/
def SummaryOutcomeSpec (table : List Transaction) (u : Int) (s? e? : Option Int) : Prop :=
  ((summary_user table u s? e?).outcome =
     .httpError 404 "No transactions found for the given criteria." ↔
   (aggregate table u s? e?).count = 0) ∧
  (0 < (aggregate table u s? e?).count →
   summary_user table u s? e? =
     { table := table, queries := 1,
       outcome := .ok { user_id := u, start_date := s?, end_date := e?,
                        count := (aggregate table u s? e?).count,
                        min := (aggregate table u s? e?).min,
                        max := (aggregate table u s? e?).max,
                        mean := (aggregate table u s? e?).mean } })

/-- Conclusion of claim C9: a successful upload of n rows of user u raises the
unbounded matching count of u by exactly n, strictly, and the following
summary call reports the raised count. -/
def AppendIncreasesCount (convMsg : String) (table : List Transaction)
    (file : CSVFile) (u : Int) (n : Nat) : Prop :=
  (aggregate (upload_csv none convMsg table file).table u none none).count
      = (aggregate table u none none).count + n ∧
  (aggregate table u none none).count
      < (aggregate (upload_csv none convMsg table file).table u none none).count ∧
  (∃ resp, (summary_user (upload_csv none convMsg table file).table u none none).outcome
      = .ok resp ∧ resp.count = (aggregate table u none none).count + n)

/-! Theorems. -/

theorem rowMatches_iff (u : Int) (s? e? : Option Int) (r : Transaction) :
    rowMatches u s? e? r = true ↔ specSelects u s? e? r := by
  obtain ⟨tid, uid, pid, ts, amt⟩ := r
  cases s? <;> cases e? <;> cases ts <;>
    simp [rowMatches, lowerOk, upperOk, specSelects, dayStart, secondsPerDay,
      Int.add_mul, Int.one_mul, and_assoc]

theorem rowMatches_none_none (u : Int) (r : Transaction) :
    rowMatches u none none r = decide (r.user_id = some u) := by
  simp [rowMatches, lowerOk, upperOk]

/-- C1: for every stored table, user id u, and optional calendar dates with
start ≤ end when both are given, the summary aggregate is computed over
exactly the rows with user_id = u whose timestamp meets the lower bound
start 00:00:00 inclusive when start is given and the upper bound
(end + 1 day) 00:00:00 exclusive when end is given; a row at end 23:59:59 is
included, a row at (end + 1) 00:00:00 is excluded, and an absent bound
imposes no constraint. -/
theorem summary_selects_exact_date_window (table : List Transaction) (u : Int)
    (s? e? : Option Int)
    (hrange : ∀ s e, s? = some s → e? = some e → s ≤ e) :
    DateWindowSelects table u s? e? := by
  refine ⟨fun r => rowMatches_iff u s? e? r, ?_, ?_, ?_⟩
  · simp [aggregate, aggRows, List.countP_eq_length_filter]
  · intro e r he hu ht
    obtain ⟨tid, uid, pid, ts, amt⟩ := r
    simp only at hu ht
    subst he hu ht
    cases hs : s? with
    | none => simp [rowMatches, lowerOk, upperOk, dayStart, secondsPerDay]
    | some s =>
      have hse := hrange s e hs rfl
      simp [rowMatches, lowerOk, upperOk, dayStart, secondsPerDay]
      omega
  · intro e r he ht
    obtain ⟨tid, uid, pid, ts, amt⟩ := r
    simp only at ht
    subst he ht
    cases s? <;>
      simp [rowMatches, lowerOk, upperOk, dayStart, secondsPerDay, Int.add_mul,
        Int.one_mul]

/-- Witness for C1 at start day 0, end day 1, the empty table and user 1. -/
theorem summary_selects_exact_date_window_witness :
    (∀ s e : Int, (some 0 : Option Int) = some s →
      (some 1 : Option Int) = some e → s ≤ e) ∧
    DateWindowSelects [] 1 (some 0) (some 1) := by
  have h : ∀ s e : Int, (some 0 : Option Int) = some s →
      (some 1 : Option Int) = some e → s ≤ e := by
    intro s e hs he
    injection hs with h1
    injection he with h2
    omega
  exact ⟨h, summary_selects_exact_date_window [] 1 (some 0) (some 1) h⟩

theorem invalidRange_false (s? e? : Option Int)
    (hrange : ∀ s e, s? = some s → e? = some e → s ≤ e) :
    invalidRange s? e? = false := by
  cases s? with
  | none => rfl
  | some s =>
    cases e? with
    | none => rfl
    | some e =>
      have := hrange s e rfl rfl
      simp [invalidRange]
      omega

/-- C6: under a valid integer user id and a valid optional range, the summary
request is a 404 exactly when the matching count is zero, and a positive
count yields the 200 body echoing user, start and end with count, min, max
and mean. -/
theorem summary_404_iff_no_rows (table : List Transaction) (u : Int)
    (s? e? : Option Int)
    (hrange : ∀ s e, s? = some s → e? = some e → s ≤ e) :
    SummaryOutcomeSpec table u s? e? := by
  have hinv := invalidRange_false s? e? hrange
  constructor
  · constructor
    · intro hout
      by_contra hne
      simp [summary_user, hinv, hne] at hout
    · intro hz
      simp [summary_user, hinv, hz]
  · intro hpos
    have hnz : ¬ (aggregate table u s? e?).count = 0 := by omega
    simp [summary_user, hinv, hnz]

/-- Witness for C6 at the empty table, user 1 and no bounds. -/
theorem summary_404_iff_no_rows_witness :
    (∀ s e : Int, (none : Option Int) = some s →
      (none : Option Int) = some e → s ≤ e) ∧
    SummaryOutcomeSpec [] 1 none none := by
  have h : ∀ s e : Int, (none : Option Int) = some s →
      (none : Option Int) = some e → s ≤ e := by
    intro s e hs
    cases hs
  exact ⟨h, summary_404_iff_no_rows [] 1 none none h⟩

/-- C7: a summary request with both dates given and end < start is rejected
with a 400 whose outcome does not depend on the stored table, leaves the
table unchanged, and executes no storage query. -/
theorem summary_invalid_range_rejected_before_storage
    (table : List Transaction) (u : Int) (s e : Int) (h : e < s) :
    summary_user table u (some s) (some e) =
      { table := table, queries := 0,
        outcome := .httpError 400 "end date must be on/after start date." } := by
  simp [summary_user, invalidRange, h]

/-- Witness for C7 at start day 1, end day 0. -/
theorem summary_invalid_range_rejected_before_storage_witness :
    (0 : Int) < 1 ∧
    summary_user [] 2 (some 1) (some 0) =
      { table := [], queries := 0,
        outcome := .httpError 400 "end date must be on/after start date." } :=
  ⟨by decide, summary_invalid_range_rejected_before_storage [] 2 1 0 (by decide)⟩

/-- C10: the summary endpoint is read-only; whatever the outcome, the
transactions table after the request equals the table before it. -/
theorem summary_preserves_table (table : List Transaction) (u : Int)
    (s? e? : Option Int) :
    (summary_user table u s? e?).table = table := by
  unfold summary_user
  split
  · rfl
  · dsimp only
    split <;> rfl

theorem castAll_length (header : List String) :
    ∀ rs ts, castAll header rs = some ts → ts.length = rs.length := by
  intro rs
  induction rs with
  | nil =>
    intro ts h
    simp [castAll] at h
    subst h
    rfl
  | cons r rs ih =>
    intro ts h
    simp only [castAll] at h
    cases hr : castRow header r <;> rw [hr] at h
    · simp at h
    · cases ha : castAll header rs <;> rw [ha] at h
      · simp at h
      · simp at h
        subst h
        simp [ih _ ha]

theorem castAll_none_of_mem (header : List String) (r : List String) :
    ∀ rs, r ∈ rs → castRow header r = none → castAll header rs = none := by
  intro rs
  induction rs with
  | nil => intro h; cases h
  | cons x rs ih =>
    intro hmem hnone
    rcases List.mem_cons.mp hmem with h | h
    · subst h
      simp [castAll, hnone]
    · simp only [castAll]
      rw [ih h hnone]
      cases castRow header x <;> rfl

theorem insertSorted_ne_nil (x : String) (l : List String) :
    insertSorted x l ≠ [] := by
  cases l with
  | nil => simp [insertSorted]
  | cons y ys =>
    simp only [insertSorted]
    split <;> simp

theorem sortStrings_eq_nil_iff (xs : List String) :
    sortStrings xs = [] ↔ xs = [] := by
  cases xs with
  | nil => simp [sortStrings]
  | cons x xs =>
    simp only [sortStrings, List.foldr]
    constructor
    · intro h
      exact absurd h (insertSorted_ne_nil x _)
    · intro h
      cases h

theorem mem_insertSorted (a x : String) (l : List String) :
    a ∈ insertSorted x l ↔ a = x ∨ a ∈ l := by
  induction l with
  | nil => simp [insertSorted]
  | cons y ys ih =>
    simp only [insertSorted]
    split
    · simp
    · simp [ih]
      tauto

theorem mem_sortStrings (a : String) (xs : List String) :
    a ∈ sortStrings xs ↔ a ∈ xs := by
  induction xs with
  | nil => simp [sortStrings]
  | cons x xs ih =>
    simp only [sortStrings, List.foldr] at *
    rw [mem_insertSorted, ih]
    simp

theorem missingCols_nil_iff (header : List String) :
    missingCols header = [] ↔ ∀ c ∈ requiredCols, header.contains c = true := by
  rw [missingCols, sortStrings_eq_nil_iff, List.filter_eq_nil_iff]
  constructor
  · intro h c hc
    have := h c hc
    simpa using this
  · intro h c hc
    simpa using h c hc

theorem missingCols_sorted (header : List String) :
    List.Pairwise (fun a b => strLtB a b = true) (missingCols header) := by
  have hall : ∀ l ∈ requiredCols.sublists,
      List.Pairwise (fun a b => strLtB a b = true) (sortStrings l) := by decide
  exact hall _ (List.mem_sublists.mpr (List.filter_sublist _))

theorem mem_missingCols (header : List String) (c : String) :
    c ∈ missingCols header ↔ c ∈ requiredCols ∧ header.contains c = false := by
  rw [missingCols, mem_sortStrings, List.mem_filter]
  simp

theorem upload_passes_validation (fault : Option String) (convMsg : String)
    (table : List Transaction) (file : CSVFile)
    (hname : filenameIsCsv file.filename = true)
    (hcols : ∀ c ∈ requiredCols, file.header.contains c = true) :
    upload_csv fault convMsg table file = insertStage fault convMsg table file := by
  have hm : missingCols file.header = [] := (missingCols_nil_iff _).mpr hcols
  simp [upload_csv, hname, hm]

theorem colIndex_lt (col : String) :
    ∀ header i, colIndex col header = some i → i < header.length := by
  intro header
  induction header with
  | nil => intro i h; cases h
  | cons c cs ih =>
    intro i h
    simp only [colIndex] at h
    split at h
    · cases h
      simp
    · cases hc : colIndex col cs <;> rw [hc] at h
      · cases h
      · injection h with h
        subst h
        have := ih _ hc
        simp
        omega

theorem colIndex_append (col : String) (h2 : List String) :
    ∀ header, header.contains col = true →
      colIndex col (header ++ h2) = colIndex col header := by
  intro header
  induction header with
  | nil => intro h; simp at h
  | cons c cs ih =>
    intro h
    by_cases hc : c = col
    · subst hc
      simp [colIndex]
    · simp only [List.cons_append, colIndex, if_neg hc, List.append_eq]
      rw [ih ?hmem]
      simp only [List.contains_cons] at h
      rcases Bool.or_eq_true_iff.mp h with h1 | h1
      · exact absurd ((by simpa using h1 : col = c)).symm hc
      · exact h1

theorem getField_append (col : String) (header h2 row r2 : List String)
    (hc : header.contains col = true) (hlen : row.length = header.length) :
    getField (header ++ h2) (row ++ r2) col = getField header row col := by
  unfold getField
  rw [colIndex_append col h2 header hc]
  cases hi : colIndex col header with
  | none => rfl
  | some i =>
    simp only [Option.some_bind]
    have hilt : i < row.length := by
      rw [hlen]
      exact colIndex_lt col header i hi
    exact List.getElem?_append_left hilt

theorem castRow_append (header h2 row r2 : List String)
    (hcols : ∀ c ∈ requiredCols, header.contains c = true)
    (hlen : row.length = header.length) :
    castRow (header ++ h2) (row ++ r2) = castRow header row := by
  unfold castRow
  rw [getField_append "transaction_id" header h2 row r2
        (hcols _ (by simp [requiredCols])) hlen,
      getField_append "user_id" header h2 row r2
        (hcols _ (by simp [requiredCols])) hlen,
      getField_append "product_id" header h2 row r2
        (hcols _ (by simp [requiredCols])) hlen,
      getField_append "timestamp" header h2 row r2
        (hcols _ (by simp [requiredCols])) hlen,
      getField_append "transaction_amount" header h2 row r2
        (hcols _ (by simp [requiredCols])) hlen]

/-- C2: every upload whose filename passes the .csv check, whose header
contains all five required columns, and whose every data row casts to the
declared column types succeeds and reports rows_inserted equal to the number
of data rows in the file. -/
theorem upload_valid_csv_reports_row_count (convMsg : String)
    (table : List Transaction) (file : CSVFile) (txs : List Transaction)
    (hname : filenameIsCsv file.filename = true)
    (hcols : ∀ c ∈ requiredCols, file.header.contains c = true)
    (hcast : castAll file.header file.rows = some txs) :
    upload_csv none convMsg table file =
      { table := table ++ txs, result := .ok file.rows.length } := by
  rw [upload_passes_validation none convMsg table file hname hcols]
  simp [insertStage, hcast, castAll_length file.header file.rows txs hcast]

/-- Witness for C2 at a one-row file and at a header-only file, whose reported
counts are 1 and 0. -/
theorem upload_valid_csv_reports_row_count_witness :
    castAll requiredCols [["t1", "7", "3", "1970-01-02 00:00:00", "100"]] =
      some [{ transaction_id := some "t1", user_id := some 7, product_id := some 3,
              timestamp := some 86400, transaction_amount := some 100 }] ∧
    upload_csv none "m" []
      { filename := "data.csv", header := requiredCols,
        rows := [["t1", "7", "3", "1970-01-02 00:00:00", "100"]] } =
      { table := [{ transaction_id := some "t1", user_id := some 7,
                    product_id := some 3, timestamp := some 86400,
                    transaction_amount := some 100 }],
        result := .ok 1 } ∧
    upload_csv none "m" []
      { filename := "empty.csv", header := requiredCols, rows := [] } =
      { table := [], result := .ok 0 } := by
  refine ⟨by decide, ?_, ?_⟩
  · exact upload_valid_csv_reports_row_count "m" [] _ _ (by decide) (by decide) (by decide)
  · exact upload_valid_csv_reports_row_count "m" [] _ _ (by decide) (by decide) (by decide)

/-- C4: an upload batch with the required columns in which some row fails to
cast returns status 400 and leaves the transactions table exactly as it was:
no row of the batch is inserted. -/
theorem upload_cast_failure_rejects_whole_batch (convMsg : String)
    (table : List Transaction) (file : CSVFile)
    (hname : filenameIsCsv file.filename = true)
    (hcols : ∀ c ∈ requiredCols, file.header.contains c = true)
    (hbad : ∃ r, r ∈ file.rows ∧ castRow file.header r = none) :
    upload_csv none convMsg table file =
      { table := table,
        result := .httpError 400 ("Invalid data format: " ++ convMsg) } := by
  obtain ⟨r, hmem, hnone⟩ := hbad
  rw [upload_passes_validation none convMsg table file hname hcols]
  simp [insertStage, handleEngineError,
    castAll_none_of_mem file.header r file.rows hmem hnone]

/-- Witness for C4 at a two-row batch whose second row has a non-integer
user_id: the valid first row is not inserted either. -/
theorem upload_cast_failure_rejects_whole_batch_witness :
    (∃ r, r ∈ [["ok", "1", "1", "1970-01-01 00:00:00", "5"],
               ["bad", "not-an-int", "1", "1970-01-01 00:00:00", "5"]] ∧
      castRow requiredCols r = none) ∧
    upload_csv none "msg" []
      { filename := "mixed.csv", header := requiredCols,
        rows := [["ok", "1", "1", "1970-01-01 00:00:00", "5"],
                 ["bad", "not-an-int", "1", "1970-01-01 00:00:00", "5"]] } =
      { table := [], result := .httpError 400 ("Invalid data format: " ++ "msg") } :=
  ⟨by decide,
   upload_cast_failure_rejects_whole_batch "msg" [] _ (by decide) (by decide) (by decide)⟩

/-- C5: an uploaded .csv file whose header lacks required columns is rejected
with a 400 naming exactly the missing columns in sorted order, while extra
columns beyond the required five are permitted and ignored by the row cast. -/
theorem upload_missing_columns_named_sorted (fault : Option String) (convMsg : String)
    (table : List Transaction) (file : CSVFile)
    (hname : filenameIsCsv file.filename = true) :
    MissingColumnsOutcome fault convMsg table file := by
  constructor
  · intro hm
    refine ⟨?_, missingCols_sorted file.header, fun c => mem_missingCols file.header c⟩
    simp [upload_csv, hname, hm]
  · intro hcols
    exact ⟨upload_passes_validation fault convMsg table file hname hcols,
           fun h2 row r2 hlen => castRow_append file.header h2 row r2 hcols hlen⟩

/-- Witness for C5 at a header with no required column: all five are named,
sorted. -/
theorem upload_missing_columns_named_sorted_witness :
    filenameIsCsv "bad.csv" = true ∧
    MissingColumnsOutcome none "m" []
      { filename := "bad.csv", header := ["wrong", "columns"], rows := [["x", "y"]] } ∧
    missingCols ["wrong", "columns"] =
      ["product_id", "timestamp", "transaction_amount", "transaction_id", "user_id"] :=
  ⟨by decide,
   upload_missing_columns_named_sorted none "m" []
     { filename := "bad.csv", header := ["wrong", "columns"], rows := [["x", "y"]] }
     (by decide),
   by decide⟩

/-- C8 amended: in the cast-and-insert step, an engine-internal failure that
is not a conversion failure is surfaced with status 400 and an Ingestion
error detail (not 500), while a cast failure is surfaced with status 400
carrying the underlying cause message. -/
theorem upload_insert_engine_errors_map_to_400 (msg convMsg : String)
    (table : List Transaction) (file : CSVFile)
    (hname : filenameIsCsv file.filename = true)
    (hcols : ∀ c ∈ requiredCols, file.header.contains c = true) :
    upload_csv (some msg) convMsg table file =
      { table := table, result := .httpError 400 ("Ingestion error: " ++ msg) } ∧
    (castAll file.header file.rows = none →
      upload_csv none convMsg table file =
        { table := table,
          result := .httpError 400 ("Invalid data format: " ++ convMsg) }) := by
  constructor
  · rw [upload_passes_validation (some msg) convMsg table file hname hcols]
    simp [insertStage, handleEngineError]
  · intro hc
    rw [upload_passes_validation none convMsg table file hname hcols]
    simp [insertStage, handleEngineError, hc]

/-- Counterexample to C8 as stated: a non-conversion engine failure in the
cast-and-insert step is surfaced with status 400, not 500 (main.py lines
143-145). -/
theorem upload_engine_error_surfaces_400_not_500 :
    (upload_csv (some "disk I/O failure") "m" []
       { filename := "t.csv", header := requiredCols, rows := [] }).result.status ≠
      some 500 ∧
    (upload_csv (some "disk I/O failure") "m" []
       { filename := "t.csv", header := requiredCols, rows := [] }).result =
      .httpError 400 ("Ingestion error: " ++ "disk I/O failure") := by
  decide

/-- Witness for the amended C8 at a concrete engine fault and at a concrete
conversion failure. -/
theorem upload_insert_engine_errors_map_to_400_witness :
    castAll requiredCols [["b", "x", "1", "1970-01-01 00:00:00", ""]] = none ∧
    upload_csv (some "backend unavailable") "m" []
      { filename := "t2.csv", header := requiredCols,
        rows := [["b", "x", "1", "1970-01-01 00:00:00", ""]] } =
      { table := [],
        result := .httpError 400 ("Ingestion error: " ++ "backend unavailable") } ∧
    upload_csv none "m" []
      { filename := "t2.csv", header := requiredCols,
        rows := [["b", "x", "1", "1970-01-01 00:00:00", ""]] } =
      { table := [], result := .httpError 400 ("Invalid data format: " ++ "m") } := by
  have h := upload_insert_engine_errors_map_to_400 "backend unavailable" "m" []
    { filename := "t2.csv", header := requiredCols,
      rows := [["b", "x", "1", "1970-01-01 00:00:00", ""]] }
    (by decide) (by decide)
  exact ⟨by decide, h.1, h.2 (by decide)⟩

/-- C3: a present-but-empty transaction_amount field is inserted as NULL, not
zero and not a cast failure; and a non-empty match set whose amounts are all
NULL yields the true row count with absent min, max and mean. -/
theorem empty_amount_inserts_null_and_allnull_stats_absent : NullAmountSemantics := by
  refine ⟨rfl, ?_, ?_⟩
  · intro header row tx hcast hfield
    simp only [castRow, Option.bind_eq_some, Option.some.injEq] at hcast
    obtain ⟨f1, h1, f2, h2, f3, h3, f4, h4, f5, h5, v1, hv1, v2, hv2, v3, hv3,
      v4, hv4, v5, hv5, htx⟩ := hcast
    rw [hfield] at h5
    injection h5 with h5
    subst h5
    simp [castField] at hv5
    subst hv5
    subst htx
    rfl
  · intro table u s? e? hne hnull
    have hfm : (table.filter (rowMatches u s? e?)).filterMap
        (fun r => r.transaction_amount) = [] := by
      rw [List.filterMap_eq_nil_iff]
      exact hnull
    constructor
    · simp only [aggregate, aggRows]
      exact List.length_pos.mpr hne
    · simp [aggregate, aggRows, hfm, sqlMin, sqlMax, sqlAvg]

/-- Witness for C3 at a row with an empty amount field and at the one-row
all-NULL table it produces. -/
theorem empty_amount_inserts_null_witness :
    castRow requiredCols ["t1", "9", "2", "1970-01-01 00:00:00", ""] =
      some { transaction_id := some "t1", user_id := some 9, product_id := some 2,
             timestamp := some 0, transaction_amount := none } ∧
    ({ transaction_id := some "t1", user_id := some 9, product_id := some 2,
       timestamp := some 0, transaction_amount := none } : Transaction).transaction_amount
      = none ∧
    aggregate [{ transaction_id := some "t1", user_id := some 9, product_id := some 2,
                 timestamp := some 0, transaction_amount := none }] 9 none none =
      { count := 1, min := none, max := none, mean := none } := by
  have h := empty_amount_inserts_null_and_allnull_stats_absent
  refine ⟨by decide, ?_, ?_⟩
  · exact h.2.1 requiredCols ["t1", "9", "2", "1970-01-01 00:00:00", ""] _
      (by decide) (by decide)
  · have h3 := (h.2.2
      [{ transaction_id := some "t1", user_id := some 9, product_id := some 2,
         timestamp := some 0, transaction_amount := none }] 9 none none
      (by decide) (by decide)).2
    exact h3.trans (by decide)

/-- C9: a successful upload containing n rows of user u, n positive, raises
the unbounded matching count of u by exactly n, strictly increasing it, and
the next summary call reports the raised count (append-only, no dedup). -/
theorem upload_user_rows_strictly_increase_count (convMsg : String)
    (table : List Transaction) (file : CSVFile) (txs : List Transaction)
    (u : Int) (n : Nat)
    (hname : filenameIsCsv file.filename = true)
    (hcols : ∀ c ∈ requiredCols, file.header.contains c = true)
    (hcast : castAll file.header file.rows = some txs)
    (hn : txs.countP (fun t => decide (t.user_id = some u)) = n)
    (hpos : 0 < n) :
    AppendIncreasesCount convMsg table file u n := by
  have htab : (upload_csv none convMsg table file).table = table ++ txs := by
    rw [upload_passes_validation none convMsg table file hname hcols]
    simp [insertStage, hcast]
  have hcnt : ∀ t2 : List Transaction,
      (aggregate t2 u none none).count = t2.countP (rowMatches u none none) := by
    intro t2
    simp [aggregate, aggRows, List.countP_eq_length_filter]
  have hpt : txs.countP (rowMatches u none none) = n := by
    rw [← hn]
    apply List.countP_congr
    intro t ht
    rw [rowMatches_none_none]
  have key : (aggregate (table ++ txs) u none none).count =
      (aggregate table u none none).count + n := by
    rw [hcnt, hcnt, List.countP_append, hpt]
  have hnz : ¬ (aggregate (table ++ txs) u none none).count = 0 := by
    rw [key]
    omega
  refine ⟨?_, ?_, ?_⟩
  · rw [htab]
    exact key
  · rw [htab, key]
    omega
  · rw [htab]
    refine ⟨{ user_id := u, start_date := none, end_date := none,
              count := (aggregate (table ++ txs) u none none).count,
              min := (aggregate (table ++ txs) u none none).min,
              max := (aggregate (table ++ txs) u none none).max,
              mean := (aggregate (table ++ txs) u none none).mean }, ?_, key⟩
    simp [summary_user, invalidRange, hnz]

/-- Witness for C9 at the empty table and a one-row upload for user 7. -/
theorem upload_user_rows_strictly_increase_count_witness :
    castAll requiredCols [["a", "7", "1", "1970-01-01 00:00:00", ""]] =
      some [{ transaction_id := some "a", user_id := some 7, product_id := some 1,
              timestamp := some 0, transaction_amount := none }] ∧
    (0 : Nat) < 1 ∧
    AppendIncreasesCount "m" []
      { filename := "u7.csv", header := requiredCols,
        rows := [["a", "7", "1", "1970-01-01 00:00:00", ""]] } 7 1 := by
  refine ⟨by decide, by decide, ?_⟩
  exact upload_user_rows_strictly_increase_count "m" []
    { filename := "u7.csv", header := requiredCols,
      rows := [["a", "7", "1", "1970-01-01 00:00:00", ""]] }
    [{ transaction_id := some "a", user_id := some 7, product_id := some 1,
       timestamp := some 0, transaction_amount := none }]
    7 1 (by decide) (by decide) (by decide) (by decide) (by decide)
